import Mathlib

/-!
Shallow embedding of the per-request access-control and viewpoint-resolution
engine of flask-demograder (`src/context.py`), together with theorems checking
the specification's claims about it.

The Flask globals (`session`, `request.args`) and the persistence layer
(`User.query`, `Course.query`, the `teaching`/`taking` relationship predicates)
are modelled as explicit inputs: a `Db` value carrying the user and course
records and the two relations, the session identity as an `Option String`, the
URL query parameters as a `UrlArgs` record, and the endpoint keyword arguments
as a `Kwargs` record.  `abort(n)` and the two uncaught exceptions the code can
raise are modelled by the `Outcome` type.
-/

namespace Demograder

/-- A stored user record (`models.User` as consumed by `context.py`):
unique email, `admin` and `faculty` privilege flags. -/
structure User where
  id : Nat
  email : String
  admin : Bool
  faculty : Bool
deriving DecidableEq, Repr

/-- A stored course record, referenced by id. -/
structure Course where
  id : Nat
deriving DecidableEq, Repr

/-- The backing data visible to the engine: user and course records plus the
`teaching`/`taking` relationship predicates of `models.User`. -/
structure Db where
  users : List User
  courses : List Course
  teaching : User → Course → Bool
  taking : User → Course → Bool

/-- The URL query parameters read by `context.py` (`request.args.to_dict()`):
the optional `viewer` email and the optional `role` name. -/
structure UrlArgs where
  viewer : Option String
  role : Option String
deriving DecidableEq, Repr

/-- The endpoint keyword arguments of `get_context`: `login_required`
(default `True`), `user` (required user id), `course_id`, and `min_role`
(default `'student'`).  `none` models the key being absent from `kwargs`. -/
structure Kwargs where
  login_required : Option Bool
  user : Option Nat
  course_id : Option Nat
  min_role : Option String
deriving DecidableEq, Repr

/-- `User.query.filter_by(email=e).first()`. -/
def lookupUserByEmail (db : Db) (e : String) : Option User :=
  db.users.find? (fun u => u.email == e)

/-- `Course.query.filter_by(id=i).first()`. -/
def lookupCourseById (db : Db) (i : Nat) : Option Course :=
  db.courses.find? (fun c => c.id == i)

/-- The `Role` enumeration of `context.py`:
`STUDENT = 0`, `INSTRUCTOR = 1`, `FACULTY = 2`, `ADMIN = 3`. -/
inductive Role where
  | STUDENT
  | INSTRUCTOR
  | FACULTY
  | ADMIN
deriving DecidableEq, Repr

/-- The numeric value of a role (`IntEnum` value). -/
def Role.val : Role → Nat
  | .STUDENT => 0
  | .INSTRUCTOR => 1
  | .FACULTY => 2
  | .ADMIN => 3

instance : LT Role := ⟨fun a b => a.val < b.val⟩

instance : LE Role := ⟨fun a b => a.val ≤ b.val⟩

instance (a b : Role) : Decidable (a < b) :=
  inferInstanceAs (Decidable (a.val < b.val))

instance (a b : Role) : Decidable (a ≤ b) :=
  inferInstanceAs (Decidable (a.val ≤ b.val))

/-- Python's `min` on two `IntEnum` members, compared by value. -/
def Role.min (a b : Role) : Role :=
  if a.val ≤ b.val then a else b

/-- `Role.__members__` lookup: the exact (upper-case) member names. -/
def Role.fromName : String → Option Role
  | "STUDENT" => some .STUDENT
  | "INSTRUCTOR" => some .INSTRUCTOR
  | "FACULTY" => some .FACULTY
  | "ADMIN" => some .ADMIN
  | _ => none

/-- Python's `str.upper()` (ASCII, which covers every role name). -/
def strUpper (s : String) : String :=
  String.mk (s.data.map Char.toUpper)

/-- `Role[s.upper()]` as a total lookup: the idiom `s.upper() in
Role.__members__` is `(parseRole s).isSome`, and the indexing itself is the
`some` case. -/
def parseRole (s : String) : Option Role :=
  Role.fromName (strUpper s)

/-- The request context dictionary built by `get_context`.  A `none` field
models the key being absent from the dictionary (for `course`, which the code
only ever reads through `context.get('course', None)`, it also covers the key
being present with value `None`). -/
structure Ctx where
  user : Option User
  viewer : Option User
  alternate_view : Option Bool
  course : Option Course
  instructor : Option Bool
  student : Option Bool
  role : Option Role
deriving DecidableEq, Repr

/-- The observable outcome of running `get_context`: a returned context,
`abort(status)`, or one of the two uncaught exceptions the code can raise
(`NameError` from the unbound name `user` on line 123, `KeyError` from a
failed `Role[...]` lookup). -/
inductive Outcome where
  | ok : Ctx → Outcome
  | abort : Nat → Outcome
  | nameError : Outcome
  | keyError : Outcome
deriving DecidableEq, Repr

/-- `_set_user_context` (lines 19-20): look the session email up in the user
table; with no session identity no record matches. -/
def set_user_context (db : Db) (session_user_email : Option String) : Option User :=
  match session_user_email with
  | some e => lookupUserByEmail db e
  | none => none

/-- `_set_viewer_context` (lines 23-28): an admin principal may name a viewer
by email via the `viewer` URL parameter; a failed lookup, an absent parameter,
or a non-admin principal all fall back to the principal.  Returns
`(viewer, alternate_view)` with `alternate_view = (user != viewer)`. -/
def set_viewer_context (db : Db) (user : User) (url_args : UrlArgs) : User × Bool :=
  let viewer_lookup : Option User :=
    if user.admin then
      match url_args.viewer with
      | some v => lookupUserByEmail db v
      | none => none
    else none
  let viewer : User :=
    match viewer_lookup with
    | some v => v
    | none => user
  (viewer, decide (user ≠ viewer))

/-- `_set_course_context` (lines 31-35): resolve `kwargs['course_id']` when
present; the `course` key is otherwise absent. -/
def set_course_context (db : Db) (kwargs : Kwargs) : Option Course :=
  match kwargs.course_id with
  | some cid => lookupCourseById db cid
  | none => none

/-- `_set_instructor_context` (lines 38-44): admins are unconditionally
instructors; otherwise the `teaching` relation decides when a course is in
scope, and with no course in scope the answer is false. -/
def set_instructor_context (db : Db) (viewer : User) (course : Option Course) : Bool :=
  if viewer.admin then
    true
  else
    match course with
    | some c => db.teaching viewer c
    | none => false

/-- `_set_student_context` (lines 47-51): the `taking` relation decides when a
course is in scope, with no admin short-circuit. -/
def set_student_context (db : Db) (viewer : User) (course : Option Course) : Bool :=
  match course with
  | some c => db.taking viewer c
  | none => false

/-- The `del url_args['role']` statement of line 57. -/
def dropRole (args : UrlArgs) : UrlArgs :=
  ⟨args.viewer, none⟩

/-- Lines 56-57 of `_set_role_context`: a `role` parameter whose upper-cased
value is not a member of `Role` is deleted from `url_args`. -/
def discardInvalidRole (args : UrlArgs) : UrlArgs :=
  match args.role with
  | some r => if (parseRole r).isNone then dropRole args else args
  | none => args

/-- `_set_role_context` (lines 54-78): after discarding an unparseable `role`
parameter, the first matching branch of the cascade admin / faculty /
instructor / else clamps the requested role (defaulting to the branch's name)
to the branch ceiling with `min`, and ORs `alternate_view` with
`role != ceiling`.  Returns `none` when the `Role[...]` lookup would raise
`KeyError` (the assignment `context['Role'] = Role` on line 55 only exposes
the class to templates and carries no information).  -/
def set_role_context (viewer : User) (instructor : Bool) (alternate_view : Bool)
    (url_args : UrlArgs) : Option (Role × Bool) :=
  let args := discardInvalidRole url_args
  if viewer.admin then
    (parseRole (args.role.getD "admin")).map (fun req =>
      let role := Role.min req Role.ADMIN
      (role, alternate_view || decide (role ≠ Role.ADMIN)))
  else if viewer.faculty then
    (parseRole (args.role.getD "faculty")).map (fun req =>
      let role := Role.min req Role.FACULTY
      (role, alternate_view || decide (role ≠ Role.FACULTY)))
  else if instructor then
    (parseRole (args.role.getD "instructor")).map (fun req =>
      let role := Role.min req Role.INSTRUCTOR
      (role, alternate_view || decide (role ≠ Role.INSTRUCTOR)))
  else
    some (Role.STUDENT, alternate_view || decide (Role.STUDENT ≠ Role.STUDENT))

/-- Lines 126-135 of `get_context`: viewer, course, and standing resolution,
the standing gate, role resolution, and the minimum-role gate.  In the source
as written this code is unreachable (line 123 raises `NameError` first, see
`get_context` below), but it is the code the specification's gates 3-8
describe, so it is embedded faithfully here. -/
def resolve_after_user_gate (db : Db) (user : User) (url_args : UrlArgs)
    (kwargs : Kwargs) : Outcome :=
  let vc := set_viewer_context db user url_args
  let viewer := vc.1
  let alternate_view := vc.2
  let course := set_course_context db kwargs
  let instructor := set_instructor_context db viewer course
  let student := set_student_context db viewer course
  if !(instructor || student) then
    Outcome.abort 403
  else
    match set_role_context viewer instructor alternate_view url_args with
    | none => Outcome.keyError
    | some rc =>
      match parseRole (kwargs.min_role.getD "student") with
      | none => Outcome.keyError
      | some m =>
        if rc.1 < m then
          Outcome.abort 403
        else
          Outcome.ok ⟨some user, some viewer, some rc.2, course,
            some instructor, some student, some rc.1⟩

/-- `get_context` (lines 81-135).  After principal resolution, a request with
`login_required = False` returns the context holding only the `user` key; an
unresolved principal aborts 401; otherwise line 123 executes
`if not user.admin:`, and `user` is an unbound name in this function (its only
locals are `url_args` and `context`), so every such request raises
`NameError` — the specific-user gate and everything after it (embedded as
`resolve_after_user_gate`) never run. -/
def get_context (db : Db) (session_user_email : Option String) (url_args : UrlArgs)
    (kwargs : Kwargs) : Outcome :=
  let context_user := set_user_context db session_user_email
  if !(kwargs.login_required.getD true) then
    Outcome.ok ⟨context_user, none, none, none, none, none, none⟩
  else
    match context_user with
    | none => Outcome.abort 401
    | some _ => Outcome.nameError

/-- The viewer's true role ceiling as the specification's 4.6 cascade states
it (spec-side definition, compared against the code's behavior): ADMIN for an
admin viewer, else FACULTY for a faculty viewer, else INSTRUCTOR with scoped
instructor standing, else STUDENT. -/
def trueCeiling (viewer : User) (instructor : Bool) : Role :=
  if viewer.admin then Role.ADMIN
  else if viewer.faculty then Role.FACULTY
  else if instructor then Role.INSTRUCTOR
  else Role.STUDENT

/-! Concrete fixtures used by witnesses and counterexample evaluations. -/

/-- A concrete admin user. -/
def adminU : User := ⟨1, "admin@x.edu", true, false⟩

/-- A concrete faculty (non-admin) user. -/
def facU : User := ⟨2, "fac@x.edu", false, true⟩

/-- A concrete unprivileged user. -/
def stuU : User := ⟨3, "stu@x.edu", false, false⟩

/-- A concrete course. -/
def course7 : Course := ⟨7⟩

/-- A concrete backing store with empty teaching/taking relations. -/
def db0 : Db := ⟨[adminU, facU, stuU], [course7], fun _ _ => false, fun _ _ => false⟩

/-- A second backing store, pointwise equal to `db0`. -/
def db0twin : Db := ⟨[adminU, facU, stuU], [course7], fun _ _ => false, fun _ _ => false⟩

/-! Helper lemmas shared by the claim theorems. -/

/-- Clamping with `min` never goes above the right argument. -/
theorem Role.min_le_right (a b : Role) : Role.min a b ≤ b := by
  cases a <;> cases b <;> decide

/-- The `alternate_view` component returned by viewer resolution is exactly
`user != viewer` for the returned viewer. -/
theorem set_viewer_context_snd (db : Db) (u : User) (args : UrlArgs) :
    (set_viewer_context db u args).2
      = decide (u ≠ (set_viewer_context db u args).1) := rfl

/-- After lines 56-57 ran, the surviving (or defaulted) role name always
parses, provided the branch's default does. -/
theorem discard_parses (args : UrlArgs) (dflt : String)
    (hd : (parseRole dflt).isSome) :
    (parseRole ((discardInvalidRole args).role.getD dflt)).isSome := by
  unfold discardInvalidRole
  cases hr : args.role with
  | none => simpa [hr] using hd
  | some r =>
    cases hq : parseRole r with
    | none => simpa [hr, hq, dropRole] using hd
    | some x => simp [hr, hq]

/-- Structural description of `_set_role_context`: every successful result is
the clamp of some requested role to the viewer's true ceiling, with
`alternate_view` OR'ed with `role != ceiling`. -/
theorem set_role_context_cases (v : User) (instructor alt : Bool) (args : UrlArgs)
    (r : Role) (a : Bool)
    (h : set_role_context v instructor alt args = some (r, a)) :
    ∃ req : Role, r = Role.min req (trueCeiling v instructor)
      ∧ a = (alt || decide (r ≠ trueCeiling v instructor)) := by
  unfold set_role_context at h
  unfold trueCeiling
  cases hA : v.admin with
  | true =>
    simp only [hA, if_true] at h ⊢
    rw [Option.map_eq_some'] at h
    obtain ⟨req, hx, hfe⟩ := h
    injection hfe with h1 h2
    subst h1
    exact ⟨req, rfl, h2.symm⟩
  | false =>
    cases hF : v.faculty with
    | true =>
      simp only [hA, hF, Bool.false_eq_true, if_false, if_true] at h ⊢
      rw [Option.map_eq_some'] at h
      obtain ⟨req, hx, hfe⟩ := h
      injection hfe with h1 h2
      subst h1
      exact ⟨req, rfl, h2.symm⟩
    | false =>
      cases hI : instructor with
      | true =>
        simp only [hA, hF, hI, Bool.false_eq_true, if_false, if_true] at h ⊢
        rw [Option.map_eq_some'] at h
        obtain ⟨req, hx, hfe⟩ := h
        injection hfe with h1 h2
        subst h1
        exact ⟨req, rfl, h2.symm⟩
      | false =>
        simp only [hA, hF, hI, Bool.false_eq_true, if_false] at h ⊢
        rw [Option.some.injEq] at h
        injection h with h1 h2
        subst h1
        exact ⟨Role.STUDENT, by decide, h2.symm⟩

/-! Claim theorems. -/

/-- C1: the claim says that on a login-required request the specific-user gate
compares the principal's admin flag and id against the configured `user`
parameter and aborts 403 exactly on a non-admin mismatch.  In the code as
written the gate can never run: line 123 reads the unbound name `user` and
raises `NameError` for every logged-in request, as this evaluation of the
embedded `get_context` at a concrete mismatching input shows (the claim
expects `abort 403` here). -/
theorem get_context_raises_name_error_at_identity_gate :
    get_context db0 (some "stu@x.edu") ⟨none, none⟩ ⟨none, some 1, none, none⟩
      = Outcome.nameError := by decide

/-- C2: for every non-admin principal the resolved viewer is the principal
itself (hence has the principal's email), whatever the `viewer` request
parameter says. -/
theorem viewer_ignored_for_non_admin (db : Db) (u : User) (args : UrlArgs)
    (h : u.admin = false) :
    (set_viewer_context db u args).1 = u
      ∧ (set_viewer_context db u args).1.email = u.email := by
  unfold set_viewer_context
  simp [h]

/-- Witness for C2 at a concrete non-admin user who requests an admin as
viewer. -/
theorem viewer_ignored_for_non_admin_witness :
    stuU.admin = false
      ∧ (set_viewer_context db0 stuU ⟨some "admin@x.edu", none⟩).1 = stuU :=
  ⟨rfl, (viewer_ignored_for_non_admin db0 stuU ⟨some "admin@x.edu", none⟩ rfl).1⟩

/-- C3: whenever role resolution completes, the effective role is at most the
viewer's true ceiling (ADMIN if admin, else FACULTY if faculty, else
INSTRUCTOR with instructor standing, else exactly STUDENT), for every `role`
request parameter: the parameter can lower but never raise the role. -/
theorem effective_role_le_true_ceiling (v : User) (instructor alt : Bool)
    (args : UrlArgs) (r : Role) (a : Bool)
    (h : set_role_context v instructor alt args = some (r, a)) :
    r ≤ trueCeiling v instructor
      ∧ (v.admin = false → v.faculty = false → instructor = false →
          r = Role.STUDENT) := by
  obtain ⟨req, hr, _⟩ := set_role_context_cases v instructor alt args r a h
  constructor
  · rw [hr]
    exact Role.min_le_right req (trueCeiling v instructor)
  · intro hA hF hI
    rw [hr]
    unfold trueCeiling
    simp only [hA, hF, hI, Bool.false_eq_true, if_false]
    cases req <;> decide

/-- Witness for C3: a faculty member requesting the admin role is clamped to
FACULTY. -/
theorem effective_role_le_true_ceiling_witness :
    Role.FACULTY ≤ trueCeiling facU false :=
  (effective_role_le_true_ceiling facU false false ⟨none, some "admin"⟩
    Role.FACULTY false (by decide)).1

/-- C4: whenever role resolution completes for the viewer produced by viewer
resolution, the final `alternate_view` flag is true exactly when the viewer
differs from the principal or the effective role differs from the viewer's
true ceiling. -/
theorem alternate_view_iff_viewpoint_or_role_differs (db : Db) (u : User)
    (args : UrlArgs) (instructor : Bool) (r : Role) (a : Bool)
    (h : set_role_context (set_viewer_context db u args).1 instructor
        (set_viewer_context db u args).2 args = some (r, a)) :
    a = true
      ↔ ((set_viewer_context db u args).1 ≠ u
          ∨ r ≠ trueCeiling (set_viewer_context db u args).1 instructor) := by
  rw [set_viewer_context_snd db u args] at h
  obtain ⟨req, hr, ha⟩ := set_role_context_cases _ instructor _ args r a h
  rw [ha]
  simp only [Bool.or_eq_true, decide_eq_true_eq]
  constructor
  · rintro (h1 | h2)
    · exact Or.inl (Ne.symm h1)
    · exact Or.inr h2
  · rintro (h1 | h2)
    · exact Or.inl (Ne.symm h1)
    · exact Or.inr h2

/-- Witness for C4: an admin viewing as a faculty member gets
`alternate_view = true`, and the theorem yields the corresponding
disjunction. -/
theorem alternate_view_iff_viewpoint_or_role_differs_witness :
    (set_viewer_context db0 adminU ⟨some "fac@x.edu", none⟩).1 ≠ adminU
      ∨ Role.FACULTY
          ≠ trueCeiling (set_viewer_context db0 adminU ⟨some "fac@x.edu", none⟩).1 true :=
  (alternate_view_iff_viewpoint_or_role_differs db0 adminU ⟨some "fac@x.edu", none⟩
    true Role.FACULTY true (by decide)).mp rfl

/-- C5: standing resolution gives an admin viewer instructor standing
unconditionally; a non-admin viewer has instructor standing exactly per the
`teaching` relation when a course is in scope and never otherwise; student
standing follows the `taking` relation when a course is in scope and is false
otherwise, with no admin short-circuit — in particular an admin teaching and
taking no courses gets, on a course-scoped request, `instructor = true`,
`student = false`, and passes the standing gate. -/
theorem standing_resolution_spec (db : Db) (viewer : User) (course : Option Course) :
    (viewer.admin = true → set_instructor_context db viewer course = true)
    ∧ (viewer.admin = false → ∀ c, course = some c →
        set_instructor_context db viewer course = db.teaching viewer c)
    ∧ (viewer.admin = false → course = none →
        set_instructor_context db viewer course = false)
    ∧ (∀ c, course = some c →
        set_student_context db viewer course = db.taking viewer c)
    ∧ (course = none → set_student_context db viewer course = false)
    ∧ (viewer.admin = true → (∀ c, db.teaching viewer c = false) →
        (∀ c, db.taking viewer c = false) → ∀ c,
        set_instructor_context db viewer (some c) = true
        ∧ set_student_context db viewer (some c) = false
        ∧ (set_instructor_context db viewer (some c)
            || set_student_context db viewer (some c)) = true) := by
  refine ⟨?_, ?_, ?_, ?_, ?_, ?_⟩
  · intro hA
    simp [set_instructor_context, hA]
  · intro hA c hc
    simp [set_instructor_context, hA, hc]
  · intro hA hc
    simp [set_instructor_context, hA, hc]
  · intro c hc
    simp [set_student_context, hc]
  · intro hc
    simp [set_student_context, hc]
  · intro hA hteach htake c
    refine ⟨by simp [set_instructor_context, hA], by simp [set_student_context, htake c], ?_⟩
    simp [set_instructor_context, hA]

/-- Witness for C5: the concrete admin of `db0` (which has empty
teaching/taking relations) on a course-scoped request. -/
theorem standing_resolution_spec_witness :
    set_instructor_context db0 adminU (some course7) = true
      ∧ set_student_context db0 adminU (some course7) = false :=
  ⟨((standing_resolution_spec db0 adminU (some course7)).2.2.2.2.2 rfl
      (fun _ => rfl) (fun _ => rfl) course7).1,
   ((standing_resolution_spec db0 adminU (some course7)).2.2.2.2.2 rfl
      (fun _ => rfl) (fun _ => rfl) course7).2.1⟩

/-- C6: the claim says a request with neither instructor nor student standing
aborts 403 at the standing gate before the effective role is computed.  In the
code as written no request ever reaches the standing gate: line 123 raises
`NameError` for every logged-in login-required request, as this evaluation at
a concrete standing-less input shows (the claim expects `abort 403` here). -/
theorem get_context_raises_name_error_before_standing_gate :
    get_context db0 (some "stu@x.edu") ⟨none, none⟩ ⟨none, none, none, none⟩
      = Outcome.nameError := by decide

/-- C7: role-name parsing is case-insensitive (it depends only on the
upper-cased name); an unparseable `role` parameter is discarded before the
cascade runs, making the request equivalent to one without the parameter (so
the branch default is used); and role resolution always succeeds — it never
raises and never aborts. -/
theorem role_parameter_parsing_recovery :
    (∀ s1 s2 : String, strUpper s1 = strUpper s2 → parseRole s1 = parseRole s2)
    ∧ (∀ (v : User) (instructor alt : Bool) (args : UrlArgs) (rn : String),
        args.role = some rn → parseRole rn = none →
        set_role_context v instructor alt args
          = set_role_context v instructor alt (dropRole args))
    ∧ (∀ (v : User) (instructor alt : Bool) (args : UrlArgs),
        ∃ out, set_role_context v instructor alt args = some out) := by
  refine ⟨?_, ?_, ?_⟩
  · intro s1 s2 h
    unfold parseRole
    rw [h]
  · intro v instructor alt args rn h1 h2
    have hd : discardInvalidRole args = dropRole args := by
      simp [discardInvalidRole, h1, h2]
    have hd2 : discardInvalidRole (dropRole args) = dropRole args := by
      simp [discardInvalidRole, dropRole]
    simp only [set_role_context, hd, hd2]
  · intro v instructor alt args
    unfold set_role_context
    cases hA : v.admin with
    | true =>
      simp only [hA, if_true]
      obtain ⟨req, hreq⟩ :=
        Option.isSome_iff_exists.mp (discard_parses args "admin" (by decide))
      exact ⟨_, by rw [hreq]; rfl⟩
    | false =>
      cases hF : v.faculty with
      | true =>
        simp only [hA, hF, Bool.false_eq_true, if_false, if_true]
        obtain ⟨req, hreq⟩ :=
          Option.isSome_iff_exists.mp (discard_parses args "faculty" (by decide))
        exact ⟨_, by rw [hreq]; rfl⟩
      | false =>
        cases hI : instructor with
        | true =>
          simp only [hA, hF, hI, Bool.false_eq_true, if_false, if_true]
          obtain ⟨req, hreq⟩ :=
            Option.isSome_iff_exists.mp (discard_parses args "instructor" (by decide))
          exact ⟨_, by rw [hreq]; rfl⟩
        | false =>
          simp only [hA, hF, hI, Bool.false_eq_true, if_false]
          exact ⟨_, rfl⟩

/-- Witness for C7: mixed-case parsing, and a faculty member with an
unparseable `role` parameter resolves as if the parameter were absent and
still succeeds. -/
theorem role_parameter_parsing_recovery_witness :
    parseRole "Admin" = parseRole "ADMIN"
    ∧ set_role_context facU false false ⟨none, some "bogus"⟩
        = set_role_context facU false false (dropRole ⟨none, some "bogus"⟩)
    ∧ ∃ out, set_role_context stuU false false ⟨none, some "bogus"⟩ = some out :=
  ⟨role_parameter_parsing_recovery.1 "Admin" "ADMIN" (by decide),
   role_parameter_parsing_recovery.2.1 facU false false ⟨none, some "bogus"⟩
     "bogus" rfl (by decide),
   role_parameter_parsing_recovery.2.2 stuU false false ⟨none, some "bogus"⟩⟩

/-- C8: the engine is deterministic — two runs with the same session identity,
request parameters, endpoint keyword arguments, and pointwise-identical
backing data produce the same outcome (same returned context, or the same
abort), both for `get_context` itself and for the post-login resolution
pipeline on every principal. -/
theorem get_context_deterministic (db1 db2 : Db) (se : Option String)
    (args : UrlArgs) (kw : Kwargs)
    (hu : db1.users = db2.users) (hc : db1.courses = db2.courses)
    (ht : ∀ u c, db1.teaching u c = db2.teaching u c)
    (hk : ∀ u c, db1.taking u c = db2.taking u c) :
    get_context db1 se args kw = get_context db2 se args kw
      ∧ ∀ u : User, resolve_after_user_gate db1 u args kw
          = resolve_after_user_gate db2 u args kw := by
  have hlook : ∀ e, lookupUserByEmail db1 e = lookupUserByEmail db2 e := by
    intro e
    unfold lookupUserByEmail
    rw [hu]
  have h1 : ∀ u, set_viewer_context db1 u args = set_viewer_context db2 u args := by
    intro u
    unfold set_viewer_context
    cases args.viewer with
    | none => rfl
    | some v => simp only [hlook v]
  have h2 : set_course_context db1 kw = set_course_context db2 kw := by
    unfold set_course_context lookupCourseById
    rw [hc]
  have h3 : ∀ v co, set_instructor_context db1 v co = set_instructor_context db2 v co := by
    intro v co
    unfold set_instructor_context
    cases co with
    | none => rfl
    | some c => simp only [ht v c]
  have h4 : ∀ v co, set_student_context db1 v co = set_student_context db2 v co := by
    intro v co
    unfold set_student_context
    cases co with
    | none => rfl
    | some c => simp only [hk v c]
  constructor
  · unfold get_context set_user_context
    cases se with
    | none => rfl
    | some e => simp only [hlook]
  · intro u
    unfold resolve_after_user_gate
    rw [h1 u, h2]
    simp only [h3, h4]

/-- Witness for C8: two syntactically distinct but pointwise-equal backing
stores give the same outcome. -/
theorem get_context_deterministic_witness :
    get_context db0 (some "stu@x.edu") ⟨none, none⟩ ⟨none, none, none, none⟩
      = get_context db0twin (some "stu@x.edu") ⟨none, none⟩ ⟨none, none, none, none⟩ :=
  (get_context_deterministic db0 db0twin (some "stu@x.edu") ⟨none, none⟩
    ⟨none, none, none, none⟩ rfl rfl (fun _ _ => rfl) (fun _ _ => rfl)).1

/-- C9: when the endpoint sets `login_required` to `False`, `get_context`
returns right after principal resolution: the context holds only the resolved
principal (possibly absent) and no other field, and no gate is evaluated, for
every session identity and all request parameters. -/
theorem login_not_required_returns_user_only (db : Db) (se : Option String)
    (args : UrlArgs) (kw : Kwargs) (h : kw.login_required = some false) :
    get_context db se args kw
      = Outcome.ok ⟨set_user_context db se, none, none, none, none, none, none⟩ := by
  simp [get_context, h]

/-- Witness for C9: an anonymous session with every permission parameter set
still returns the principal-only context. -/
theorem login_not_required_returns_user_only_witness :
    get_context db0 none ⟨some "fac@x.edu", some "admin"⟩
        ⟨some false, some 99, some 7, some "admin"⟩
      = Outcome.ok ⟨none, none, none, none, none, none, none⟩ :=
  (login_not_required_returns_user_only db0 none ⟨some "fac@x.edu", some "admin"⟩
    ⟨some false, some 99, some 7, some "admin"⟩ rfl).trans (by decide)

/-- C10: the claim says a login-required request with no course identifier and
a non-admin viewer always aborts 403 at the standing gate.  In the code as
written the request never gets there: line 123 raises `NameError` first, as
this evaluation at a concrete course-less request of a non-admin faculty user
shows (the claim expects `abort 403` here). -/
theorem get_context_raises_name_error_no_course_request :
    get_context db0 (some "fac@x.edu") ⟨none, none⟩ ⟨none, none, none, none⟩
      = Outcome.nameError := by decide

end Demograder
